import Mathlib

/-!
# Verification of the X12 EDI processor core

Shallow embedding of the acknowledgment-document assembler
(`src/parsers/x12_277ca_parser.py`) and the claim reconciliation engine
(`src/core/reconciliation.py`), together with theorems settling the
specification's claims about them.

Modelling conventions:
* Python `dict`-shaped records become structures with `Option`-typed fields;
  a missing key and a key stored with value `None` both become `none`
  (matching `dict.get`).
* Python truthiness (`if x:`) on an optional string is `none`/`some ""` ↦
  false; on an optional number it is `none`/`some 0` ↦ false.
* Monetary amounts are rationals (`ℚ`); `int(float(x))` is truncation
  toward zero.
* Python's insertion-ordered `dict` is an association list where an insert
  updates an existing key in place and otherwise appends at the end.
* `datetime` values are integer seconds on a linear timeline; a parsed
  calendar date maps to its proleptic-Gregorian ordinal times 86400 seconds,
  and `timedelta.days` is floor division of the difference by 86400.
-/

namespace X12

/-!
## Python string primitives

The source only ever splits on single-character separators, strips ASCII
whitespace, removes newline characters and parses digit strings, so those
operations are embedded as structural recursions over the character list
of a `String` (which also keeps every definition kernel-evaluable on
concrete inputs).
-/

/-- `str.split(sep)` for a one-character separator: splitting the empty
string yields `[""]`, and adjacent separators yield empty pieces. -/
def pySplitList (sep : Char) : List Char → List (List Char)
  | [] => [[]]
  | c :: rest =>
      let r := pySplitList sep rest
      if c = sep then [] :: r
      else
        match r with
        | h :: t => (c :: h) :: t
        | [] => [[c]]

def pySplit (sep : Char) (s : String) : List String :=
  (pySplitList sep s.data).map String.mk

/-- `sep in str` for a one-character needle. -/
def pyContains (c : Char) (s : String) : Bool :=
  s.data.contains c

/-- `str.strip()` restricted to ASCII whitespace. -/
def pyStrip (s : String) : String :=
  ⟨((s.data.dropWhile Char.isWhitespace).reverse.dropWhile Char.isWhitespace).reverse⟩

/-- `str.replace("\n", "")`. -/
def pyRemoveNewlines (s : String) : String :=
  ⟨s.data.filter (fun c => c ≠ '\n')⟩

/-- Digit-string to natural number (`none` unless nonempty and all
digits). -/
def pyToNat? (s : String) : Option Nat :=
  if s.data ≠ [] ∧ s.data.all Char.isDigit then
    some (s.data.foldl (fun n c => n * 10 + (c.toNat - 48)) 0)
  else none

def pyStartsWithChar (c : Char) (s : String) : Bool :=
  match s.data with
  | c' :: _ => c' = c
  | [] => false

def pyDropOne (s : String) : String :=
  ⟨s.data.drop 1⟩

/-- Python truthiness of an optional string: `None` and `""` are falsy. -/
def pyTruthyStr (o : Option String) : Bool :=
  match o with
  | none => false
  | some s => !s.isEmpty

/-- Python truthiness of an optional rational: `None` and `0` are falsy. -/
def pyTruthyRat (o : Option ℚ) : Bool :=
  match o with
  | none => false
  | some q => decide (q ≠ 0)

/-- Python `a or b` on optional rationals: `b` when `a` is falsy. -/
def pyOrRat (a b : Option ℚ) : Option ℚ :=
  if pyTruthyRat a then a else b

/-- Python `int` applied to a rational: truncation toward zero
(`int(2.7) = 2`, `int(-2.7) = -2`). -/
def pyIntTrunc (q : ℚ) : Int :=
  Int.tdiv q.num (q.den : Int)

/-- Python `float()` on the decimal literals this repository feeds it:
optional surrounding whitespace, optional sign, digits with an optional
decimal point. Returns `none` on anything else (the callers catch the
`ValueError` and leave the field unset). -/
def parseUnsignedDecimal (s : String) : Option ℚ :=
  match pySplit '.' s with
  | [a] => (pyToNat? a).map (fun n => (n : ℚ))
  | [a, b] =>
      if a.isEmpty && b.isEmpty then none
      else
        match pyToNat? (if a.isEmpty then "0" else a),
              pyToNat? (if b.isEmpty then "0" else b) with
        | some x, some y => some ((x : ℚ) + (y : ℚ) / ((10 : ℚ) ^ b.length))
        | _, _ => none
  | _ => none

def parseFloat (s : String) : Option ℚ :=
  let t := pyStrip s
  if pyStartsWithChar '-' t then (parseUnsignedDecimal (pyDropOne t)).map Neg.neg
  else if pyStartsWithChar '+' t then parseUnsignedDecimal (pyDropOne t)
  else parseUnsignedDecimal t

/-!
## Tokenizer (`_parse_segments`)
-/

/-- One delimited segment: leading type code plus the remaining elements. -/
structure Segment where
  id : String
  elements : List String
deriving DecidableEq, Repr

/-- `_parse_segments`: strip newline characters, split on `~`, trim each
piece, drop empty pieces, split each remaining piece on `*` into the
segment id and its element list. -/
def parseSegments (x12_content : String) : List Segment :=
  (pySplit '~' (pyRemoveNewlines x12_content)).filterMap fun line =>
    let line := pyStrip line
    if line.isEmpty then none
    else
      match pySplit '*' line with
      | [] => none
      | idPart :: rest => some ⟨idPart, rest⟩

/-!
## Transaction records and field extractors
-/

/-- The transaction-in-progress created by `_init_transaction`; every field
starts absent. -/
structure Transaction where
  claim_id : Option String := none
  patient_id : Option String := none
  patient_name : Option String := none
  date_of_service : Option String := none
  billed_amount : Option ℚ := none
  status_category : Option String := none
  status_code : Option String := none
  rejection_reason : Option String := none
  provider_npi : Option String := none
  payer_claim_control_number : Option String := none
  trace_number : Option String := none
deriving DecidableEq, Repr

def init_transaction : Transaction := {}

/-- `_process_nm1`: entity code in element 0; `IL` fills patient name
(elements 2 and 1) and patient id (element 8); `1P` fills the provider NPI
(element 8). Segments with fewer than two elements are ignored. -/
def process_nm1 (seg : Segment) (t : Transaction) : Transaction :=
  let es := seg.elements
  if es.length < 2 then t
  else
    let entity_code := es.getD 0 ""
    if entity_code = "IL" then
      let t1 := if es.length ≥ 3 then
          { t with patient_name := some (es.getD 2 "" ++ " " ++ es.getD 1 "") }
        else t
      if es.length ≥ 9 then { t1 with patient_id := some (es.getD 8 "") } else t1
    else if entity_code = "1P" then
      if es.length ≥ 9 then { t with provider_npi := some (es.getD 8 "") } else t
    else t

/-- `_process_trn`: trace number from element 1. -/
def process_trn (seg : Segment) (t : Transaction) : Transaction :=
  let es := seg.elements
  if es.length ≥ 2 then { t with trace_number := some (es.getD 1 "") } else t

/-- `_process_stc`: element 0 is a colon-delimited `category:code`
composite; element 3 (not 2) is the total claim charge amount, parsed as a
decimal, parse failures leaving the field unchanged. -/
def process_stc (seg : Segment) (t : Transaction) : Transaction :=
  let es := seg.elements
  if es.length < 1 then t
  else
    let status_info := es.getD 0 ""
    let t1 :=
      if pyContains ':' status_info then
        match pySplit ':' status_info with
        | c :: rest =>
            { t with status_category := some c,
                     status_code := match rest with
                                    | code :: _ => some code
                                    | [] => none }
        | [] => t
      else t
    if es.length ≥ 4 ∧ !(es.getD 3 "").isEmpty then
      match parseFloat (es.getD 3 "") with
      | some q => { t1 with billed_amount := some q }
      | none => t1
    else t1

/-- `_process_ref`: qualifier `D9` fills claim_id; qualifier `EA` fills
patient_id only when patient_id is not already (truthily) set. -/
def process_ref (seg : Segment) (t : Transaction) : Transaction :=
  let es := seg.elements
  if es.length < 2 then t
  else
    let qual := es.getD 0 ""
    let v := es.getD 1 ""
    if qual = "D9" then { t with claim_id := some v }
    else if qual = "EA" then
      if pyTruthyStr t.patient_id then t else { t with patient_id := some v }
    else t

/-- `_process_dtp`: qualifier `472` fills date_of_service from element 2. -/
def process_dtp (seg : Segment) (t : Transaction) : Transaction :=
  let es := seg.elements
  if es.length < 3 then t
  else if es.getD 0 "" = "472" then { t with date_of_service := some (es.getD 2 "") }
  else t

/-- `_process_msg`: rejection reason from element 0 (last message wins). -/
def process_msg (seg : Segment) (t : Transaction) : Transaction :=
  match seg.elements with
  | v :: _ => { t with rejection_reason := some v }
  | [] => t

/-!
## Hierarchical assembler, classifier and summary (`X12_277CA_Parser.parse`)
-/

/-- Dispatch one segment to its field extractor (the `elif` chain inside
`parse`; unrecognized segment ids pass through untouched). -/
def dispatchSegment (seg : Segment) (t : Transaction) : Transaction :=
  if seg.id = "NM1" then process_nm1 seg t
  else if seg.id = "TRN" then process_trn seg t
  else if seg.id = "STC" then process_stc seg t
  else if seg.id = "REF" then process_ref seg t
  else if seg.id = "DTP" then process_dtp seg t
  else if seg.id = "MSG" then process_msg seg t
  else t

/-- Assembler state: the transaction-in-progress and the committed
acknowledgment list (in order). -/
structure AsmState where
  current : Option Transaction
  acks : List Transaction
deriving DecidableEq, Repr

/-- Commit the current transaction: push it onto the output list iff its
trace_number is truthy (`if current_transaction and
current_transaction.get("trace_number")`). -/
def commitCurrent (st : AsmState) : List Transaction :=
  match st.current with
  | some t => if pyTruthyStr t.trace_number then st.acks ++ [t] else st.acks
  | none => st.acks

/-- One iteration of the assembler loop: an `HL` segment with level code
`22` in element 2 commits the current transaction and starts a fresh one;
then, when a transaction is open, the segment is dispatched to the matching
extractor (`HL` itself matches none of them). -/
def stepSegment (st : AsmState) (seg : Segment) : AsmState :=
  let st1 :=
    if seg.id = "HL" ∧ seg.elements.length ≥ 3 then
      if seg.elements.getD 2 "" = "22" then
        { current := some init_transaction, acks := commitCurrent st }
      else st
    else st
  match st1.current with
  | some t => { st1 with current := some (dispatchSegment seg t) }
  | none => st1

/-- Classifier/summary block of `parse`. -/
structure Summary where
  total_claims : Nat
  rejected_count : Nat
  accepted_count : Nat
  rejection_rate : ℚ
deriving DecidableEq, Repr

/-- The full result structure returned by `parse`. -/
structure ParseResult where
  transaction_type : String
  version : String
  acknowledgments : List Transaction
  rejections : List Transaction
  acceptances : List Transaction
  summary : Summary
deriving DecidableEq, Repr

/-- The body of `X12_277CA_Parser.parse` (the whole `try` block): tokenize,
assemble hierarchically, commit the last open transaction, classify by
status category, and attach summary statistics. -/
def assemble277CA (x12_content : String) : ParseResult :=
  let segments := parseSegments x12_content
  let final := segments.foldl stepSegment ⟨none, []⟩
  let acknowledgments := commitCurrent final
  let rejections := acknowledgments.filter (fun a => a.status_category = some "A7")
  let acceptances := acknowledgments.filter (fun a => a.status_category = some "A1")
  { transaction_type := "277CA"
    version := "005010X214"
    acknowledgments := acknowledgments
    rejections := rejections
    acceptances := acceptances
    summary :=
      { total_claims := acknowledgments.length
        rejected_count := rejections.length
        accepted_count := acceptances.length
        rejection_rate :=
          if acknowledgments.isEmpty then 0
          else (rejections.length : ℚ) / (acknowledgments.length : ℚ) * 100 } }

/-- `X12_277CA_Parser.parse` with its `try`/`except` wrapper: every
operation inside the `try` block is total (string splits, guarded list
indexing, a guarded division, and a `float()` call already wrapped in its
own handler), so the `except` branch that would re-raise an `X12ParseError`
is unreachable and the call always returns the assembled result. -/
def parse277CA (x12_content : String) : Except String ParseResult :=
  Except.ok (assemble277CA x12_content)

/-!
## Reconciliation engine (`ClaimReconciliationEngine`)
-/

/-- A record handed to the engine (a 277CA rejection or an 835 claim);
mirrors the `dict.get` accesses the engine performs, with a missing key
read as `none`. -/
structure TxnRecord where
  transaction_date : Option String := none
  patient_id : Option String := none
  patient_name : Option String := none
  date_of_service : Option String := none
  billed_amount : Option ℚ := none
  charged_amount : Option ℚ := none
  rejection_reason : Option String := none
  status_code : Option String := none
  trace_number : Option String := none
  payment_date : Option String := none
  paid_amount : Option ℚ := none
  claim_status : Option String := none
deriving DecidableEq, Repr

/-- Feeding a parser transaction to the engine: the engine reads these dict
keys; keys the parser transaction never carries (such as
`transaction_date`, `charged_amount`, `payment_date`) read as `none`. -/
def txnToRecord (t : Transaction) : TxnRecord :=
  { transaction_date := none
    patient_id := t.patient_id
    patient_name := t.patient_name
    date_of_service := t.date_of_service
    billed_amount := t.billed_amount
    charged_amount := none
    rejection_reason := t.rejection_reason
    status_code := t.status_code
    trace_number := t.trace_number
    payment_date := none
    paid_amount := none
    claim_status := none }

/-- The date-normalization block inside `_create_match_key`: a truthy
date_of_service containing `-` that splits into exactly two parts whose
first part has length 8 is replaced by that first part (a date range is
narrowed to its start); every other value is left unchanged. -/
def normalizeServiceDate (d : String) : String :=
  if !d.isEmpty ∧ pyContains '-' d then
    match pySplit '-' d with
    | [p0, _p1] => if p0.length = 8 then p0 else d
    | _ => d
  else d

/-- `_create_match_key`: requires a truthy patient_id; normalizes the
date_of_service; appends the truthy date and the truthy amount
(`billed_amount or charged_amount`) truncated to an integer; joins with
`|`; yields a key only when at least two parts were collected. -/
def create_match_key (transaction : TxnRecord) : Option String :=
  let patient_id := transaction.patient_id
  let amount := pyOrRat transaction.billed_amount transaction.charged_amount
  if !pyTruthyStr patient_id then none
  else
    let date_of_service :=
      match transaction.date_of_service with
      | none => none
      | some d => some (normalizeServiceDate d)
    let key_parts : List String :=
      [patient_id.getD ""]
        ++ (if pyTruthyStr date_of_service then [date_of_service.getD ""] else [])
        ++ (if pyTruthyRat amount then [toString (pyIntTrunc (amount.getD 0))] else [])
    if key_parts.length ≥ 2 then some (String.intercalate "|" key_parts) else none

/-- A rejections-cache entry, exactly the dict built by
`add_277ca_rejections`. -/
structure CacheEntry where
  rejection_date : Option String
  patient_id : Option String
  patient_name : Option String
  date_of_service : Option String
  billed_amount : Option ℚ
  rejection_reason : Option String
  status_code : Option String
  trace_number : Option String
  found_in_835 : Bool
  resubmission_date : Option String
deriving DecidableEq, Repr

/-- A payments-cache entry, exactly the dict built by `add_835_payments`. -/
structure PaymentEntry where
  payment_date : Option String
  patient_id : Option String
  paid_amount : Option ℚ
  claim_status : Option String
deriving DecidableEq, Repr

/-- Insertion-ordered dict write `d[k] = v`: update an existing binding in
place, otherwise append at the end. -/
def alistInsert (k : String) (v : α) : List (String × α) → List (String × α)
  | [] => [(k, v)]
  | (k', v') :: rest =>
      if k' = k then (k, v) :: rest else (k', v') :: alistInsert k v rest

/-- Dict lookup `d.get(k)` / `d[k]`. -/
def alistLookup (k : String) : List (String × α) → Option α
  | [] => none
  | (k', v) :: rest => if k' = k then some v else alistLookup k rest

/-- Dict membership `k in d`. -/
def alistContains (k : String) (l : List (String × α)) : Bool :=
  (alistLookup k l).isSome

/-- Map a value transformation over the binding at one key
(`d[k]["field"] = ...` updates). -/
def alistModify (k : String) (f : α → α) : List (String × α) → List (String × α)
  | [] => []
  | (k', v) :: rest =>
      if k' = k then (k', f v) :: rest else (k', v) :: alistModify k f rest

/-- The engine's mutable state. -/
structure Engine where
  lookback_days : Nat := 60
  rejections_cache : List (String × CacheEntry) := []
  payments_cache : List (String × PaymentEntry) := []
deriving DecidableEq, Repr

def initEngine : Engine := {}

/-- The cache entry `add_277ca_rejections` builds from one rejection
record. -/
def mkCacheEntry (rejection : TxnRecord) : CacheEntry :=
  { rejection_date := rejection.transaction_date
    patient_id := rejection.patient_id
    patient_name := rejection.patient_name
    date_of_service := rejection.date_of_service
    billed_amount := rejection.billed_amount
    rejection_reason := rejection.rejection_reason
    status_code := rejection.status_code
    trace_number := rejection.trace_number
    found_in_835 := false
    resubmission_date := none }

/-- Body of the `add_277ca_rejections` loop for one rejection record:
compute the match key; when present, insert/overwrite the cache entry;
otherwise leave the engine untouched. -/
def addOneRejection (e : Engine) (rejection : TxnRecord) : Engine :=
  match create_match_key rejection with
  | none => e
  | some k =>
      { e with rejections_cache := alistInsert k (mkCacheEntry rejection) e.rejections_cache }

/-- `add_277ca_rejections` over the parsed document's rejections list. -/
def add_277ca_rejections (e : Engine) (rejections : List TxnRecord) : Engine :=
  rejections.foldl addOneRejection e

/-- Body of the `add_835_payments` loop for one claim record: compute the
match key; when present, store the payment entry, and when the key matches
a cached rejection, set its `found_in_835` flag and record the payment
date as `resubmission_date`. -/
def addOnePayment (e : Engine) (claim : TxnRecord) : Engine :=
  match create_match_key claim with
  | none => e
  | some k =>
      let pe : PaymentEntry :=
        { payment_date := claim.payment_date
          patient_id := claim.patient_id
          paid_amount := claim.paid_amount
          claim_status := claim.claim_status }
      let e1 := { e with payments_cache := alistInsert k pe e.payments_cache }
      if alistContains k e1.rejections_cache then
        let upd := fun (c : CacheEntry) =>
          { c with found_in_835 := true, resubmission_date := claim.payment_date }
        { e1 with rejections_cache := alistModify k upd e1.rejections_cache }
      else e1

/-- `add_835_payments` over the parsed document's claims list. -/
def add_835_payments (e : Engine) (claims : List TxnRecord) : Engine :=
  claims.foldl addOnePayment e

/-!
## Calendar dates and `find_unsubmitted_claims`

`datetime` values become integer seconds on a linear timeline; a date at
midnight is its proleptic-Gregorian ordinal times 86400.
-/

def isLeapYear (y : Nat) : Bool :=
  (y % 4 == 0 && y % 100 != 0) || (y % 400 == 0)

def daysInMonth (y m : Nat) : Nat :=
  if m = 2 then (if isLeapYear y then 29 else 28)
  else if m = 4 ∨ m = 6 ∨ m = 9 ∨ m = 11 then 30
  else 31

def daysBeforeMonth (y m : Nat) : Nat :=
  (List.range (m - 1)).foldl (fun acc i => acc + daysInMonth y (i + 1)) 0

/-- Proleptic-Gregorian ordinal of a date (day 1 = 0001-01-01), as used by
`datetime` subtraction. -/
def dateOrdinal (y m d : Nat) : Nat :=
  365 * (y - 1) + (y - 1) / 4 + (y - 1) / 400 - (y - 1) / 100
    + daysBeforeMonth y m + d

def secondsPerDay : Int := 86400

def validYMD (y m d : Nat) : Bool :=
  1 ≤ y && y ≤ 9999 && 1 ≤ m && m ≤ 12 && 1 ≤ d && d ≤ daysInMonth y m

/-- `datetime.strptime(s, "%Y%m%d")` on the compact dates this system
exchanges: exactly eight digits, a valid calendar date; the result is the
date at midnight, as seconds on the timeline. -/
def strptimeCompact (s : String) : Option Int :=
  let cs := s.data
  if cs.length = 8 ∧ cs.all Char.isDigit then
    match pyToNat? (String.mk (cs.take 4)),
          pyToNat? (String.mk ((cs.drop 4).take 2)),
          pyToNat? (String.mk (cs.drop 6)) with
    | some y, some m, some d =>
        if validYMD y m d then some ((dateOrdinal y m d : Int) * secondsPerDay) else none
    | _, _, _ => none
  else none

/-- `datetime.strptime(s, "%Y-%m-%d")` on dashed dates: four-digit year,
one- or two-digit month and day, a valid calendar date. -/
def strptimeDashed (s : String) : Option Int :=
  match pySplit '-' s with
  | [ys, ms, ds] =>
      if ys.data.length = 4 ∧ ys.data.all Char.isDigit
         ∧ 1 ≤ ms.data.length ∧ ms.data.length ≤ 2 ∧ ms.data.all Char.isDigit
         ∧ 1 ≤ ds.data.length ∧ ds.data.length ≤ 2 ∧ ds.data.all Char.isDigit then
        match pyToNat? ys, pyToNat? ms, pyToNat? ds with
        | some y, some m, some d =>
            if validYMD y m d then some ((dateOrdinal y m d : Int) * secondsPerDay) else none
        | _, _, _ => none
      else none
  | _ => none

/-- The date parse inside `find_unsubmitted_claims`: dashed format when the
string contains `-`, compact format otherwise; `ValueError` becomes
`none` (the entry is skipped with a diagnostic). -/
def parseRejectionDate (s : String) : Option Int :=
  if pyContains '-' s then strptimeDashed s else strptimeCompact s

/-- `timedelta.days` of a difference of timeline points: floor division by
86400 (Python timedelta normalization). -/
def timedeltaDays (diff : Int) : Int :=
  Int.fdiv diff secondsPerDay

/-- The alert dict emitted for one aged unmatched rejection. -/
structure Alert where
  severity : String
  match_key : String
  patient_id : Option String
  patient_name : Option String
  date_of_service : Option String
  billed_amount : Option ℚ
  rejection_date : Option String
  rejection_reason : Option String
  days_since_rejection : Int
  estimated_revenue_loss : Option ℚ
  action_required : String
deriving DecidableEq, Repr

/-- The loop body of `find_unsubmitted_claims` for one cache binding:
`none` when the entry is skipped (already found in 835, falsy or
unparseable rejection date, or not older than the threshold date). -/
def alertOf (now : Int) (days_threshold : Int) (kv : String × CacheEntry) : Option Alert :=
  let rejection := kv.2
  if rejection.found_in_835 then none
  else if !pyTruthyStr rejection.rejection_date then none
  else
    match parseRejectionDate (rejection.rejection_date.getD "") with
    | none => none
    | some rejection_ts =>
        let threshold_ts := now - days_threshold * secondsPerDay
        if rejection_ts < threshold_ts then
          let days_since_rejection := timedeltaDays (now - rejection_ts)
          some
            { severity := if days_since_rejection > 45 then "HIGH" else "MEDIUM"
              match_key := kv.1
              patient_id := rejection.patient_id
              patient_name := rejection.patient_name
              date_of_service := rejection.date_of_service
              billed_amount := rejection.billed_amount
              rejection_date := rejection.rejection_date
              rejection_reason := rejection.rejection_reason
              days_since_rejection := days_since_rejection
              estimated_revenue_loss := rejection.billed_amount
              action_required :=
                "Review rejection reason and resubmit corrected claim. This claim will NEVER appear in 835 until resubmitted." }
        else none

/-- Stable insertion for the final `alerts.sort(key=days, reverse=True)`:
an element goes before the first strictly-later-keyed element, preserving
original order among equal keys. -/
def insertByDaysDesc (a : Alert) : List Alert → List Alert
  | [] => [a]
  | b :: bs =>
      if a.days_since_rejection ≥ b.days_since_rejection then a :: b :: bs
      else b :: insertByDaysDesc a bs

def sortByDaysDesc (l : List Alert) : List Alert :=
  l.foldr insertByDaysDesc []

/-- `find_unsubmitted_claims`: scan the rejections cache in insertion
order, emit an alert for every unmatched, parseable, sufficiently old
rejection, then sort by age descending. `now` stands for
`datetime.now()`. -/
def find_unsubmitted_claims (e : Engine) (now : Int) (days_threshold : Int) : List Alert :=
  sortByDaysDesc (e.rejections_cache.filterMap (alertOf now days_threshold))

/-- The summary dict of `get_reconciliation_summary`. -/
structure ReconSummary where
  total_rejections_tracked : Nat
  successfully_resubmitted : Nat
  still_unsubmitted : Nat
  resubmission_rate : ℚ
  potential_revenue_at_risk : ℚ
  tracking_period_days : Nat
deriving DecidableEq, Repr

/-- `float(r.get("billed_amount", 0) or 0)`: an absent or zero billed
amount contributes 0. -/
def entryLoss (c : CacheEntry) : ℚ :=
  match c.billed_amount with
  | none => 0
  | some q => q

/-- `get_reconciliation_summary`. -/
def get_reconciliation_summary (e : Engine) : ReconSummary :=
  let entries := e.rejections_cache.map Prod.snd
  let total_rejections := entries.length
  let resubmitted := (entries.filter (fun c => c.found_in_835)).length
  let potential_loss :=
    (entries.foldl (fun acc c => if c.found_in_835 then acc else acc + entryLoss c) 0 : ℚ)
  { total_rejections_tracked := total_rejections
    successfully_resubmitted := resubmitted
    still_unsubmitted := total_rejections - resubmitted
    resubmission_rate :=
      if total_rejections > 0 then (resubmitted : ℚ) / (total_rejections : ℚ) * 100 else 0
    potential_revenue_at_risk := potential_loss
    tracking_period_days := e.lookback_days }

/-!
## Concrete fixtures used by witnesses and counterexamples
-/

/-- A cached unmatched $150 rejection under key `"P1|20240101"`. -/
def entryC5 : CacheEntry :=
  ⟨none, some "P1", none, some "20240101", some (150 : ℚ), none, none, none, false, none⟩

def engineC5 : Engine := ⟨60, [("P1|20240101", entryC5)], []⟩

/-- A rejection record whose match key is `"P1|20240101"`. -/
def recordC5 : TxnRecord :=
  { patient_id := some "P1", date_of_service := some "20240101" }

/-- A cache entry already matched to an 835 payment (found_in_835 true). -/
def entryC9 : CacheEntry :=
  ⟨none, some "P1", none, some "20240101", none, none, none, none, true, some "20240301"⟩

def engineC9 : Engine := ⟨60, [("P1|20240101", entryC9)], []⟩

def recordC9 : TxnRecord :=
  { patient_id := some "P1", date_of_service := some "20240101" }

/-!
## Helper lemmas
-/

theorem str_isEmpty_false_of_ne {s : String} (h : s ≠ "") : s.isEmpty = false := by
  cases hs : s.isEmpty
  · rfl
  · exact absurd ((String.isEmpty_iff s).mp hs) h

theorem normalizeServiceDate_ne_empty {d : String} (h : d ≠ "") :
    normalizeServiceDate d ≠ "" := by
  unfold normalizeServiceDate
  split
  · split
    · split
      · intro hc
        subst hc
        simp_all
      · exact h
    · exact h
  · exact h

theorem alistLookup_insert_self (k : String) (v : α) (l : List (String × α)) :
    alistLookup k (alistInsert k v l) = some v := by
  induction l with
  | nil => simp [alistInsert, alistLookup]
  | cons hd tl ih =>
      obtain ⟨k', v'⟩ := hd
      by_cases hk : k' = k
      · simp [alistInsert, alistLookup, hk]
      · simp [alistInsert, alistLookup, hk, ih]

theorem alistLookup_insert_ne {k₁ k : String} (h : k₁ ≠ k) (v : α)
    (l : List (String × α)) :
    alistLookup k₁ (alistInsert k v l) = alistLookup k₁ l := by
  have h' : ¬(k = k₁) := fun hc => h hc.symm
  induction l with
  | nil => simp [alistInsert, alistLookup, h']
  | cons hd tl ih =>
      obtain ⟨k', v'⟩ := hd
      by_cases hk : k' = k
      · subst hk
        simp [alistInsert, alistLookup, h']
      · simp [alistInsert, alistLookup, hk, ih]

theorem alistLookup_modify (k₁ k : String) (f : α → α) (l : List (String × α)) :
    alistLookup k₁ (alistModify k f l) =
      if k₁ = k then (alistLookup k l).map f else alistLookup k₁ l := by
  induction l with
  | nil =>
      by_cases hk : k₁ = k <;> simp [alistModify, alistLookup, hk]
  | cons hd tl ih =>
      obtain ⟨k', v'⟩ := hd
      by_cases hk : k' = k
      · subst hk
        by_cases h1 : k' = k₁
        · subst h1
          simp [alistModify, alistLookup]
        · have h1' : ¬(k₁ = k') := fun hc => h1 hc.symm
          simp [alistModify, alistLookup, h1, h1']
      · by_cases h1 : k' = k₁
        · subst h1
          have hk' : ¬(k' = k) := hk
          have h1' : ¬(k' = k) := hk
          simp [alistModify, alistLookup, hk', fun hc => hk' (hc : k' = k)]
        · have h1' : ¬(k₁ = k') := fun hc => h1 hc.symm
          simp [alistModify, alistLookup, hk, h1, h1', ih]

theorem alistInsert_length_of_mem {k : String} {l : List (String × α)}
    (h : (alistLookup k l).isSome = true) (v : α) :
    (alistInsert k v l).length = l.length := by
  induction l with
  | nil => simp [alistLookup] at h
  | cons hd tl ih =>
      obtain ⟨k', v'⟩ := hd
      by_cases hk : k' = k
      · simp [alistInsert, hk]
      · rw [show alistLookup k ((k', v') :: tl) = alistLookup k tl from by
              simp [alistLookup, hk]] at h
        simp [alistInsert, hk, ih h]

theorem alistInsert_mem {kv : String × α} {k : String} {v : α}
    {l : List (String × α)} (h : kv ∈ alistInsert k v l) :
    kv = (k, v) ∨ kv ∈ l := by
  induction l with
  | nil => simpa [alistInsert] using h
  | cons hd tl ih =>
      obtain ⟨k', v'⟩ := hd
      by_cases hk : k' = k
      · subst hk
        rw [show alistInsert k' v ((k', v') :: tl) = (k', v) :: tl from by
              simp [alistInsert]] at h
        rcases List.mem_cons.mp h with h | h
        · exact Or.inl h
        · exact Or.inr (List.mem_cons_of_mem _ h)
      · rw [show alistInsert k v ((k', v') :: tl) = (k', v') :: alistInsert k v tl from by
              simp [alistInsert, hk]] at h
        rcases List.mem_cons.mp h with h | h
        · exact Or.inr (by simp [h])
        · rcases ih h with h' | h'
          · exact Or.inl h'
          · exact Or.inr (List.mem_cons_of_mem _ h')

theorem entryLoss_eq (c : CacheEntry) : entryLoss c = c.billed_amount.getD 0 := by
  unfold entryLoss
  cases c.billed_amount <;> rfl

theorem loss_foldl (a : ℚ) (l : List CacheEntry) :
    l.foldl (fun acc c => if c.found_in_835 then acc else acc + entryLoss c) a
      = a + ((l.filter (fun c => !c.found_in_835)).map
              (fun c => c.billed_amount.getD 0)).sum := by
  induction l generalizing a with
  | nil => simp
  | cons hd tl ih =>
      rw [List.foldl_cons]
      cases hf : hd.found_in_835
      · rw [if_neg (by simp [hf]), ih]
        simp [List.filter_cons, hf, entryLoss_eq, add_assoc]
      · rw [if_pos rfl, ih]
        simp [List.filter_cons, hf]

theorem pyTruthyStr_none_eq : pyTruthyStr none = false := rfl

theorem pyTruthyStr_some_eq (s : String) : pyTruthyStr (some s) = !s.isEmpty := rfl

theorem normalizeServiceDate_isEmpty (d : String) :
    (normalizeServiceDate d).isEmpty = d.isEmpty := by
  by_cases hne : d = ""
  · subst hne
    rfl
  · rw [str_isEmpty_false_of_ne hne,
        str_isEmpty_false_of_ne (normalizeServiceDate_ne_empty hne)]

/-- Case analysis of `_create_match_key`: no key without a truthy
patient_id or with neither a truthy date nor a truthy amount; otherwise the
joined composite of the truthy components. -/
theorem create_match_key_cases (r : TxnRecord) :
    create_match_key r =
      if pyTruthyStr r.patient_id then
        if pyTruthyStr r.date_of_service
             ∨ pyTruthyRat (pyOrRat r.billed_amount r.charged_amount) then
          some (String.intercalate "|"
            ([r.patient_id.getD ""]
              ++ (if pyTruthyStr r.date_of_service
                  then [normalizeServiceDate (r.date_of_service.getD "")] else [])
              ++ (if pyTruthyRat (pyOrRat r.billed_amount r.charged_amount)
                  then [toString (pyIntTrunc ((pyOrRat r.billed_amount r.charged_amount).getD 0))]
                  else [])))
        else none
      else none := by
  unfold create_match_key
  cases hp : pyTruthyStr r.patient_id
  · simp [hp]
  · cases hdos : r.date_of_service with
    | none =>
        cases ha : pyTruthyRat (pyOrRat r.billed_amount r.charged_amount) <;>
          simp [hp, hdos, ha, pyTruthyStr_none_eq]
    | some d =>
        have hnorm : pyTruthyStr (some (normalizeServiceDate d)) = pyTruthyStr (some d) := by
          simp [pyTruthyStr, normalizeServiceDate_isEmpty]
        cases he : pyTruthyStr (some d) <;>
          cases ha : pyTruthyRat (pyOrRat r.billed_amount r.charged_amount) <;>
            simp [hp, hdos, ha, hnorm, he]

theorem pyTruthyRat_none_eq : pyTruthyRat none = false := rfl

theorem pyTruthyRat_some_eq (q : ℚ) : pyTruthyRat (some q) = decide (q ≠ 0) := rfl

theorem normalizeServiceDate_eq_of_ne {d : String} (hd : d ≠ "") :
    normalizeServiceDate d =
      if pyContains '-' d then
        (match pySplit '-' d with
         | [p0, _p1] => if p0.length = 8 then p0 else d
         | _ => d)
      else d := by
  unfold normalizeServiceDate
  by_cases hc : pyContains '-' d
  · rw [if_pos ⟨by rw [str_isEmpty_false_of_ne hd]; rfl, hc⟩, if_pos hc]
  · rw [if_neg (fun h => hc h.2), if_neg hc]

/-!
## Claims
-/

/-- Claim C1: for every record passed to `_create_match_key` via the two
ingestion operations, a record with no (truthy) patient_id, or with neither
a (truthy) date_of_service nor a (truthy) amount, yields no match key and
leaves both caches untouched (and no error is raised — the operations are
total); otherwise the key is the present components, patient_id, normalized
date and truncated amount, joined with the fixed separator `|`. -/
theorem claim_C1 (e : Engine) (r : TxnRecord) :
    (pyTruthyStr r.patient_id = false
        ∨ (pyTruthyStr r.date_of_service = false
            ∧ pyTruthyRat (pyOrRat r.billed_amount r.charged_amount) = false) →
      create_match_key r = none ∧ addOneRejection e r = e ∧ addOnePayment e r = e)
    ∧ (pyTruthyStr r.patient_id = true →
        (pyTruthyStr r.date_of_service = true
          ∨ pyTruthyRat (pyOrRat r.billed_amount r.charged_amount) = true) →
      create_match_key r = some (String.intercalate "|"
        ([r.patient_id.getD ""]
          ++ (if pyTruthyStr r.date_of_service
              then [normalizeServiceDate (r.date_of_service.getD "")] else [])
          ++ (if pyTruthyRat (pyOrRat r.billed_amount r.charged_amount)
              then [toString (pyIntTrunc ((pyOrRat r.billed_amount r.charged_amount).getD 0))]
              else [])))) := by
  constructor
  · intro h
    have hkey : create_match_key r = none := by
      rw [create_match_key_cases]
      rcases h with hp | ⟨hd, ha⟩
      · simp [hp]
      · simp [hd, ha]
    exact ⟨hkey, by simp [addOneRejection, hkey], by simp [addOnePayment, hkey]⟩
  · intro hp hor
    rw [create_match_key_cases]
    rcases hor with h | h <;> simp [hp, h]

/-- Claim C1 witness: a record with no patient_id yields no key and is
inserted into neither cache; a full record yields the joined key. -/
theorem claim_C1_witness :
    (create_match_key ({} : TxnRecord) = none
      ∧ addOneRejection initEngine {} = initEngine
      ∧ addOnePayment initEngine {} = initEngine)
    ∧ create_match_key
        ({ patient_id := some "P1", date_of_service := some "20240101",
           billed_amount := some (150 : ℚ) } : TxnRecord)
        = some "P1|20240101|150" := by
  constructor
  · exact (claim_C1 initEngine {}).1 (Or.inl rfl)
  · have h := (claim_C1 initEngine
      { patient_id := some "P1", date_of_service := some "20240101",
        billed_amount := some (150 : ℚ) }).2 (by decide) (Or.inl (by decide))
    rw [h]
    decide

/-- Claim C2 counterexample: for the date_of_service `"ABCDEFGH-xyz"` —
which is not a dash-delimited range of two 8-digit segments (the second
segment is not 8 digits, and neither segment is all digits) — the claim
says the date component stays unchanged, yet the code normalizes it down
to the first split part `"ABCDEFGH"` because it only checks that the split
has exactly two parts and that the first has length 8. Additionally, for a
record whose billed_amount is present but zero (with charged_amount 150),
the claim predicts amount component `"0"`, but the falsy billed_amount
falls through to charged_amount and the component is `"150"`. -/
theorem claim_C2_counterexample :
    create_match_key ({ patient_id := some "P1", date_of_service := some "ABCDEFGH-xyz",
                        billed_amount := some (mkRat 603 4) } : TxnRecord)
        = some "P1|ABCDEFGH|150"
    ∧ create_match_key ({ patient_id := some "P1", date_of_service := some "ABCDEFGH-xyz",
                          billed_amount := some (mkRat 603 4) } : TxnRecord)
        ≠ some "P1|ABCDEFGH-xyz|150"
    ∧ create_match_key ({ patient_id := some "P1", date_of_service := some "20240101",
                          billed_amount := some (0 : ℚ),
                          charged_amount := some (150 : ℚ) } : TxnRecord)
        = some "P1|20240101|150"
    ∧ create_match_key ({ patient_id := some "P1", date_of_service := some "20240101",
                          billed_amount := some (0 : ℚ),
                          charged_amount := some (150 : ℚ) } : TxnRecord)
        ≠ some "P1|20240101|0" := by
  refine ⟨by decide, by decide, by decide, by decide⟩

/-- Claim C2 (amended): the date component equals the first dash-delimited
segment exactly when date_of_service contains a dash, splitting on dashes
yields exactly two segments, and the first segment has length 8 (the
segments need not be digits and the second segment's length is not
checked); every other non-empty date_of_service is used unchanged; and a
present non-zero amount contributes the amount truncated toward zero. -/
theorem claim_C2_amended (p d : String) (a : Option ℚ)
    (hp : p ≠ "") (hd : d ≠ "") :
    create_match_key
        ({ patient_id := some p, date_of_service := some d,
           billed_amount := a } : TxnRecord)
      = some (String.intercalate "|"
          ([p, if pyContains '-' d then
                 (match pySplit '-' d with
                  | [p0, _p1] => if p0.length = 8 then p0 else d
                  | _ => d)
               else d]
            ++ (match a with
                | some q => if q = 0 then [] else [toString (pyIntTrunc q)]
                | none => []))) := by
  rw [create_match_key_cases]
  have hps : pyTruthyStr (some p) = true := by
    simp [pyTruthyStr_some_eq, str_isEmpty_false_of_ne hp]
  have hds : pyTruthyStr (some d) = true := by
    simp [pyTruthyStr_some_eq, str_isEmpty_false_of_ne hd]
  simp only [hps, hds, if_true, true_or, Option.getD_some]
  rw [normalizeServiceDate_eq_of_ne hd]
  cases a with
  | none => simp [pyOrRat, pyTruthyRat_none_eq]
  | some q =>
      by_cases hq : q = 0
      · subst hq
        simp [pyOrRat, pyTruthyRat_some_eq, pyTruthyRat_none_eq]
      · simp [pyOrRat, pyTruthyRat_some_eq, hq]

theorem commitCurrent_truthy {st : AsmState}
    (h : ∀ t ∈ st.acks, pyTruthyStr t.trace_number = true) :
    ∀ t ∈ commitCurrent st, pyTruthyStr t.trace_number = true := by
  intro t ht
  unfold commitCurrent at ht
  cases hcur : st.current with
  | none =>
      simp only [hcur] at ht
      exact h t ht
  | some tc =>
      simp only [hcur] at ht
      by_cases htr : pyTruthyStr tc.trace_number = true
      · rw [if_pos htr] at ht
        rcases List.mem_append.mp ht with h1 | h1
        · exact h t h1
        · rw [List.mem_singleton.mp h1]
          exact htr
      · rw [if_neg htr] at ht
        exact h t ht

theorem stepSegment_truthy (seg : Segment) {st : AsmState}
    (h : ∀ t ∈ st.acks, pyTruthyStr t.trace_number = true) :
    ∀ t ∈ (stepSegment st seg).acks, pyTruthyStr t.trace_number = true := by
  unfold stepSegment
  by_cases h1 : seg.id = "HL" ∧ seg.elements.length ≥ 3
  · rw [if_pos h1]
    by_cases h2 : seg.elements.getD 2 "" = "22"
    · rw [if_pos h2]
      intro t ht
      exact commitCurrent_truthy h t ht
    · rw [if_neg h2]
      cases hc : st.current with
      | none => simpa [hc] using h
      | some tc => simpa [hc] using h
  · rw [if_neg h1]
    cases hc : st.current with
    | none => simpa [hc] using h
    | some tc => simpa [hc] using h

theorem foldl_stepSegment_truthy (segs : List Segment) (st : AsmState)
    (h : ∀ t ∈ st.acks, pyTruthyStr t.trace_number = true) :
    ∀ t ∈ (segs.foldl stepSegment st).acks, pyTruthyStr t.trace_number = true := by
  induction segs generalizing st with
  | nil => exact h
  | cons s rest ih => exact ih _ (stepSegment_truthy s h)

theorem truthy_exists {o : Option String} (h : pyTruthyStr o = true) :
    ∃ s, o = some s ∧ s ≠ "" := by
  cases o with
  | none => simp [pyTruthyStr] at h
  | some s =>
      refine ⟨s, rfl, fun hc => ?_⟩
      subst hc
      exact absurd h (by decide)

/-- Claim C3: every record in the assembler's final acknowledgments list —
and hence in the rejections and acceptances sublists — carries a non-empty
trace_number; a transaction whose trace_number is unset or empty at commit
time (at a claim-level boundary or at stream end) is dropped. -/
theorem claim_C3 (x12_content : String) (t : Transaction)
    (h : t ∈ (assemble277CA x12_content).acknowledgments
         ∨ t ∈ (assemble277CA x12_content).rejections
         ∨ t ∈ (assemble277CA x12_content).acceptances) :
    ∃ s, t.trace_number = some s ∧ s ≠ "" := by
  have hack : t ∈ (assemble277CA x12_content).acknowledgments := by
    rcases h with h | h | h
    · exact h
    · exact (List.mem_filter.mp h).1
    · exact (List.mem_filter.mp h).1
  have h0 : ∀ u ∈ (AsmState.mk none []).acks, pyTruthyStr u.trace_number = true := by
    intro u hu
    simp at hu
  have h1 := foldl_stepSegment_truthy (parseSegments x12_content) _ h0
  have h2 := commitCurrent_truthy h1
  exact truthy_exists (h2 t hack)

/-- Claim C3 witness: the single committed record of a two-segment document
has the non-empty trace number `"ABC123"`. -/
theorem claim_C3_witness :
    ∃ s, ({ trace_number := some "ABC123" } : Transaction).trace_number = some s ∧ s ≠ "" :=
  claim_C3 "HL*1**22~TRN*1*ABC123~" { trace_number := some "ABC123" }
    (Or.inl (by decide))

/-- Evaluation of the `find_unsubmitted_claims` loop body on an unmatched
entry whose rejection date parses successfully. -/
theorem alertOf_eval (k : String) {c : CacheEntry} {s : String} {ts : Int}
    (hf : c.found_in_835 = false) (hd : c.rejection_date = some s) (hs : s ≠ "")
    (hp : parseRejectionDate s = some ts) (now thr : Int) :
    alertOf now thr (k, c) =
      if ts < now - thr * secondsPerDay then
        some { severity := if timedeltaDays (now - ts) > 45 then "HIGH" else "MEDIUM"
               match_key := k
               patient_id := c.patient_id
               patient_name := c.patient_name
               date_of_service := c.date_of_service
               billed_amount := c.billed_amount
               rejection_date := c.rejection_date
               rejection_reason := c.rejection_reason
               days_since_rejection := timedeltaDays (now - ts)
               estimated_revenue_loss := c.billed_amount
               action_required := "Review rejection reason and resubmit corrected claim. This claim will NEVER appear in 835 until resubmitted." }
      else none := by
  have hts : pyTruthyStr (some s) = true := by
    rw [pyTruthyStr_some_eq, str_isEmpty_false_of_ne hs]
    rfl
  unfold alertOf timedeltaDays
  simp only [hf, hd, hts, Bool.not_true, Bool.false_eq_true, if_false,
    Option.getD_some, hp]

theorem sortByDaysDesc_singleton (a : Alert) : sortByDaysDesc [a] = [a] := rfl

/-- Claim C4: for a one-entry rejections cache whose entry is unmatched and
whose rejection date parses to exactly 45 days before the current time,
`find_unsubmitted_claims` with a 30-day threshold returns exactly one alert
with severity `"MEDIUM"`; at exactly 46 days, exactly one alert with
severity `"HIGH"`. -/
theorem claim_C4 (lb : Nat) (pc : List (String × PaymentEntry))
    (k s : String) (c : CacheEntry) (now ts : Int)
    (hf : c.found_in_835 = false)
    (hd : c.rejection_date = some s) (hs : s ≠ "")
    (hp : parseRejectionDate s = some ts) :
    (now - ts = 45 * secondsPerDay →
      (find_unsubmitted_claims ⟨lb, [(k, c)], pc⟩ now 30).map Alert.severity = ["MEDIUM"])
    ∧ (now - ts = 46 * secondsPerDay →
      (find_unsubmitted_claims ⟨lb, [(k, c)], pc⟩ now 30).map Alert.severity = ["HIGH"]) := by
  constructor
  · intro h45
    have hlt : ts < now - 30 * secondsPerDay := by
      simp only [secondsPerDay] at h45 ⊢
      omega
    have hdays : timedeltaDays (now - ts) = 45 := by
      rw [timedeltaDays, h45]
      decide
    unfold find_unsubmitted_claims
    rw [show (Engine.mk lb [(k, c)] pc).rejections_cache = [(k, c)] from rfl,
        List.filterMap_cons, alertOf_eval k hf hd hs hp now 30, if_pos hlt, hdays]
    simp [sortByDaysDesc_singleton]
  · intro h46
    have hlt : ts < now - 30 * secondsPerDay := by
      simp only [secondsPerDay] at h46 ⊢
      omega
    have hdays : timedeltaDays (now - ts) = 46 := by
      rw [timedeltaDays, h46]
      decide
    unfold find_unsubmitted_claims
    rw [show (Engine.mk lb [(k, c)] pc).rejections_cache = [(k, c)] from rfl,
        List.filterMap_cons, alertOf_eval k hf hd hs hp now 30, if_pos hlt, hdays]
    simp [sortByDaysDesc_singleton]

/-- Claim C4 witness: rejection date `2024-01-01` (timeline second
63839750400), current times exactly 45 and 46 days later. -/
theorem claim_C4_witness :
    (find_unsubmitted_claims
        ⟨60, [("K", ⟨some "20240101", none, none, none, none, none, none, none,
                     false, none⟩)], []⟩ 63843638400 30).map Alert.severity = ["MEDIUM"]
    ∧ (find_unsubmitted_claims
        ⟨60, [("K", ⟨some "20240101", none, none, none, none, none, none, none,
                     false, none⟩)], []⟩ 63843724800 30).map Alert.severity = ["HIGH"] := by
  refine ⟨?_, ?_⟩
  · exact (claim_C4 60 [] "K" "20240101"
      ⟨some "20240101", none, none, none, none, none, none, none, false, none⟩
      63843638400 63839750400 rfl rfl (by decide) (by decide)).1 (by decide)
  · exact (claim_C4 60 [] "K" "20240101"
      ⟨some "20240101", none, none, none, none, none, none, none, false, none⟩
      63843724800 63839750400 rfl rfl (by decide) (by decide)).2 (by decide)

/-- Claim C2 (amended) witness: a genuine 8-digit range is narrowed to the
range start and a fractional amount is truncated. -/
theorem claim_C2_witness :
    create_match_key
        ({ patient_id := some "P1", date_of_service := some "20240101-20240131",
           billed_amount := some (mkRat 603 4) } : TxnRecord)
      = some "P1|20240101|150" := by
  have h := claim_C2_amended "P1" "20240101-20240131" (some (mkRat 603 4))
    (by decide) (by decide)
  rw [h]
  decide


/-- Claim C5: the summary's potential_revenue_at_risk equals exactly the
sum of billed_amount (absent counted as 0) over the rejections-cache
entries not found in 835, and re-adding a rejection for an existing match
key overwrites the entry in place (same cache size, entry replaced), so no
amount is double counted. -/
theorem claim_C5 (e : Engine) (r : TxnRecord) (k : String) :
    (get_reconciliation_summary e).potential_revenue_at_risk =
      (((e.rejections_cache.map Prod.snd).filter (fun c => !c.found_in_835)).map
        (fun c => c.billed_amount.getD 0)).sum
    ∧ (create_match_key r = some k → (alistLookup k e.rejections_cache).isSome = true →
        (addOneRejection e r).rejections_cache.length = e.rejections_cache.length
        ∧ alistLookup k (addOneRejection e r).rejections_cache = some (mkCacheEntry r)) := by
  constructor
  · have hpot : (get_reconciliation_summary e).potential_revenue_at_risk
        = (e.rejections_cache.map Prod.snd).foldl
            (fun acc c => if c.found_in_835 then acc else acc + entryLoss c) 0 := rfl
    rw [hpot, loss_foldl]
    simp
  · intro hkey hmem
    have hrej : (addOneRejection e r).rejections_cache
        = alistInsert k (mkCacheEntry r) e.rejections_cache := by
      unfold addOneRejection
      rw [hkey]
    rw [hrej]
    exact ⟨alistInsert_length_of_mem hmem _, alistLookup_insert_self k _ _⟩

/-- Claim C5 witness: a one-entry cache with an unmatched $150 rejection;
re-adding a record with the same match key keeps the cache size at one and
replaces the entry. -/
theorem claim_C5_witness :
    ((get_reconciliation_summary engineC5).potential_revenue_at_risk =
      (((engineC5.rejections_cache.map Prod.snd).filter (fun c => !c.found_in_835)).map
        (fun c => c.billed_amount.getD 0)).sum)
    ∧ ((addOneRejection engineC5 recordC5).rejections_cache.length
          = engineC5.rejections_cache.length
        ∧ alistLookup "P1|20240101" (addOneRejection engineC5 recordC5).rejections_cache
          = some (mkCacheEntry recordC5)) := by
  have h := claim_C5 engineC5 recordC5 "P1|20240101"
  exact ⟨h.1, h.2 (by decide) (by decide)⟩

/-- The classifier/summary block of `parse` read off the result structure. -/
theorem assemble_summary_spec (s : String) :
    (assemble277CA s).summary.total_claims = (assemble277CA s).acknowledgments.length
    ∧ (assemble277CA s).summary.rejected_count = (assemble277CA s).rejections.length
    ∧ (assemble277CA s).summary.accepted_count = (assemble277CA s).acceptances.length
    ∧ (assemble277CA s).summary.rejection_rate =
        (if (assemble277CA s).acknowledgments.isEmpty then 0
         else ((assemble277CA s).rejections.length : ℚ)
                / ((assemble277CA s).acknowledgments.length : ℚ) * 100)
    ∧ (assemble277CA s).rejections
        = (assemble277CA s).acknowledgments.filter (fun a => a.status_category = some "A7")
    ∧ (assemble277CA s).acceptances
        = (assemble277CA s).acknowledgments.filter (fun a => a.status_category = some "A1") :=
  ⟨rfl, rfl, rfl, rfl, rfl, rfl⟩

/-- Claim C6 counterexample: the empty document yields zero committed
records, yet `parse` returns normally (`Except.ok`) instead of raising a
document-parse failure. -/
theorem claim_C6_counterexample :
    parse277CA "" = Except.ok (assemble277CA "")
    ∧ (assemble277CA "").acknowledgments = [] :=
  ⟨rfl, by decide⟩

/-- Claim C6 (amended): `parse` never raises — it returns the assembled
result for every input; when the stream yields zero committed records the
result simply carries an empty acknowledgments list with zero counts and a
zero rejection rate, not a failure. -/
theorem claim_C6_amended (s : String) :
    parse277CA s = Except.ok (assemble277CA s)
    ∧ ((assemble277CA s).acknowledgments = [] →
        (assemble277CA s).summary.total_claims = 0
        ∧ (assemble277CA s).summary.rejection_rate = 0) := by
  refine ⟨rfl, fun h => ?_⟩
  obtain ⟨h1, _, _, h4, _, _⟩ := assemble_summary_spec s
  constructor
  · rw [h1, h]
    rfl
  · rw [h4, h]
    rfl

/-- Claim C6 (amended) witness: the empty document. -/
theorem claim_C6_witness :
    parse277CA "" = Except.ok (assemble277CA "")
    ∧ ((assemble277CA "").summary.total_claims = 0
        ∧ (assemble277CA "").summary.rejection_rate = 0) :=
  ⟨(claim_C6_amended "").1, (claim_C6_amended "").2 (by decide)⟩


/-- Claim C7 counterexample: in a nine-element patient name segment the
code reads the patient id from element 8 (0-based, excluding the segment
id), not from element 7 as the claim states. -/
theorem claim_C7_counterexample :
    (process_nm1 ⟨"NM1", ["IL", "LAST", "FIRST", "X3", "X4", "X5", "X6", "E7", "E8"]⟩
        init_transaction).patient_id = some "E8"
    ∧ (process_nm1 ⟨"NM1", ["IL", "LAST", "FIRST", "X3", "X4", "X5", "X6", "E7", "E8"]⟩
        init_transaction).patient_id ≠ some "E7" :=
  ⟨by decide, by decide⟩

/-- Claim C7 (amended): a name segment with fewer than two elements is
ignored; role `IL` builds patient_name as `first last` from elements 2 and
1 and reads patient_id from element 8 when present (nine or more
elements); role `1P` reads provider_npi from element 8 when present; a
segment too short to contain an element leaves the field unset. -/
theorem claim_C7_amended (seg : Segment) (t : Transaction) :
    (seg.elements.length < 2 → process_nm1 seg t = t)
    ∧ (seg.elements.length ≥ 2 → seg.elements.getD 0 "" = "IL" →
        (process_nm1 seg t).patient_name =
          (if seg.elements.length ≥ 3
           then some (seg.elements.getD 2 "" ++ " " ++ seg.elements.getD 1 "")
           else t.patient_name)
        ∧ (process_nm1 seg t).patient_id =
          (if seg.elements.length ≥ 9 then some (seg.elements.getD 8 "") else t.patient_id)
        ∧ (process_nm1 seg t).provider_npi = t.provider_npi)
    ∧ (seg.elements.length ≥ 2 → seg.elements.getD 0 "" = "1P" →
        (process_nm1 seg t).provider_npi =
          (if seg.elements.length ≥ 9 then some (seg.elements.getD 8 "") else t.provider_npi)
        ∧ (process_nm1 seg t).patient_id = t.patient_id
        ∧ (process_nm1 seg t).patient_name = t.patient_name) := by
  unfold process_nm1
  refine ⟨fun hlt => ?_, fun hge hil => ?_, fun hge hp => ?_⟩
  · rw [if_pos hlt]
  · have hnlt : ¬(seg.elements.length < 2) := by omega
    simp only [hnlt, if_false, hil]
    by_cases h3 : seg.elements.length ≥ 3 <;>
      by_cases h9 : seg.elements.length ≥ 9 <;>
        simp [h3, h9]
  · have hnlt : ¬(seg.elements.length < 2) := by omega
    simp only [hnlt, if_false, hp]
    by_cases h9 : seg.elements.length ≥ 9 <;>
      simp [h9]

/-- Claim C7 (amended) witness: a full nine-element `IL` segment and a
short three-element `IL` segment. -/
theorem claim_C7_witness :
    ((process_nm1 ⟨"NM1", ["IL", "LAST", "FIRST", "X3", "X4", "X5", "X6", "E7", "E8"]⟩
        init_transaction).patient_name = some "FIRST LAST"
      ∧ (process_nm1 ⟨"NM1", ["IL", "LAST", "FIRST", "X3", "X4", "X5", "X6", "E7", "E8"]⟩
        init_transaction).patient_id = some "E8")
    ∧ (process_nm1 ⟨"NM1", ["IL", "LAST", "FIRST"]⟩ init_transaction).patient_id = none := by
  have h1 := ((claim_C7_amended
      ⟨"NM1", ["IL", "LAST", "FIRST", "X3", "X4", "X5", "X6", "E7", "E8"]⟩
      init_transaction).2.1 (by decide) (by decide))
  have h2 := ((claim_C7_amended ⟨"NM1", ["IL", "LAST", "FIRST"]⟩
      init_transaction).2.1 (by decide) (by decide))
  refine ⟨⟨?_, ?_⟩, ?_⟩
  · rw [h1.1]
    decide
  · rw [h1.2.1]
    decide
  · rw [h2.2.1]
    decide

/-- Claim C8 counterexample: a document with two committed claims, one
rejected, yields rejection_rate 50 — a percentage — not the ratio 1/2 the
claim describes. -/
theorem claim_C8_counterexample :
    (assemble277CA "HL*1**22~TRN*1*T1~STC*A7:42~HL*2**22~TRN*2*T2~STC*A1:0~").summary.rejected_count = 1
    ∧ (assemble277CA "HL*1**22~TRN*1*T1~STC*A7:42~HL*2**22~TRN*2*T2~STC*A1:0~").summary.total_claims = 2
    ∧ (assemble277CA "HL*1**22~TRN*1*T1~STC*A7:42~HL*2**22~TRN*2*T2~STC*A1:0~").summary.rejection_rate = 50
    ∧ (assemble277CA "HL*1**22~TRN*1*T1~STC*A7:42~HL*2**22~TRN*2*T2~STC*A1:0~").summary.rejection_rate
        ≠ ((assemble277CA "HL*1**22~TRN*1*T1~STC*A7:42~HL*2**22~TRN*2*T2~STC*A1:0~").summary.rejected_count : ℚ)
            / ((assemble277CA "HL*1**22~TRN*1*T1~STC*A7:42~HL*2**22~TRN*2*T2~STC*A1:0~").summary.total_claims : ℚ) := by
  have h1 : (assemble277CA "HL*1**22~TRN*1*T1~STC*A7:42~HL*2**22~TRN*2*T2~STC*A1:0~").summary.rejected_count = 1 := by
    decide
  have h2 : (assemble277CA "HL*1**22~TRN*1*T1~STC*A7:42~HL*2**22~TRN*2*T2~STC*A1:0~").summary.total_claims = 2 := by
    decide
  have hie : (assemble277CA "HL*1**22~TRN*1*T1~STC*A7:42~HL*2**22~TRN*2*T2~STC*A1:0~").acknowledgments.isEmpty = false := by
    decide
  have hlen : (assemble277CA "HL*1**22~TRN*1*T1~STC*A7:42~HL*2**22~TRN*2*T2~STC*A1:0~").acknowledgments.length = 2 := by
    decide
  have hrej : (assemble277CA "HL*1**22~TRN*1*T1~STC*A7:42~HL*2**22~TRN*2*T2~STC*A1:0~").rejections.length = 1 := by
    decide
  have h4 := (assemble_summary_spec "HL*1**22~TRN*1*T1~STC*A7:42~HL*2**22~TRN*2*T2~STC*A1:0~").2.2.2.1
  rw [hie, hlen, hrej] at h4
  simp only [Bool.false_eq_true, if_false] at h4
  refine ⟨h1, h2, ?_, ?_⟩
  · rw [h4]
    norm_num
  · rw [h4, h1, h2]
    norm_num

/-- Claim C8 (amended): the summary reports total = number of
acknowledgments, rejected = number of records with the rejected category
code, accepted = number with the accepted code, and rejection_rate =
rejected divided by total multiplied by 100 (a percentage, not a plain
ratio), with rate 0 when the total is 0. -/
theorem claim_C8_amended (s : String) :
    (assemble277CA s).summary.total_claims = (assemble277CA s).acknowledgments.length
    ∧ (assemble277CA s).summary.rejected_count
        = (assemble277CA s).acknowledgments.countP (fun a => a.status_category = some "A7")
    ∧ (assemble277CA s).summary.accepted_count
        = (assemble277CA s).acknowledgments.countP (fun a => a.status_category = some "A1")
    ∧ (assemble277CA s).summary.rejection_rate =
        (if (assemble277CA s).acknowledgments.length = 0 then 0
         else ((assemble277CA s).summary.rejected_count : ℚ)
                / ((assemble277CA s).summary.total_claims : ℚ) * 100) := by
  obtain ⟨h1, h2, h3, h4, h5, h6⟩ := assemble_summary_spec s
  refine ⟨h1, ?_, ?_, ?_⟩
  · rw [h2, h5, List.countP_eq_length_filter]
  · rw [h3, h6, List.countP_eq_length_filter]
  · rw [h4, h1, h2]
    by_cases hl : (assemble277CA s).acknowledgments.isEmpty
    · rw [if_pos hl, if_pos]
      rw [List.isEmpty_iff] at hl
      rw [hl]
      rfl
    · rw [if_neg hl, if_neg]
      intro hc
      rw [List.isEmpty_iff] at hl
      exact hl (List.length_eq_zero.mp hc)


/-- Claim C9 counterexample: an entry whose found_in_835 flag is true is
replaced wholesale — flag reset to false — by a later `add_rejections`
call carrying the same match key, so `add_payments` is not the only
operation that changes an existing entry. -/
theorem claim_C9_counterexample :
    (alistLookup "P1|20240101" engineC9.rejections_cache).map CacheEntry.found_in_835
        = some true
    ∧ (alistLookup "P1|20240101"
          (addOneRejection engineC9 recordC9).rejections_cache).map CacheEntry.found_in_835
        = some false :=
  ⟨by decide, by decide⟩

/-- Claim C9 (amended): rejection-cache entries are created only by
`add_rejections` and never deleted; an existing entry is changed only by
(a) `add_payments` with a matching payment key, which sets found_in_835
and resubmission_date and leaves every other field unchanged, or (b) a
later `add_rejections` call whose record has the same match key, which
replaces the entry wholesale (resetting found_in_835 to false);
`add_payments` never creates a rejection-cache entry. -/
theorem claim_C9_amended (e : Engine) (r c : TxnRecord) (k : String) (entry : CacheEntry)
    (h : alistLookup k e.rejections_cache = some entry) :
    alistLookup k (addOneRejection e r).rejections_cache =
        some (if create_match_key r = some k then mkCacheEntry r else entry)
    ∧ alistLookup k (addOnePayment e c).rejections_cache =
        some (if create_match_key c = some k
              then { entry with found_in_835 := true, resubmission_date := c.payment_date }
              else entry)
    ∧ (∀ k₁, alistLookup k₁ e.rejections_cache = none →
        alistLookup k₁ (addOnePayment e c).rejections_cache = none) := by
  refine ⟨?_, ?_, ?_⟩
  · cases hkey : create_match_key r with
    | none =>
        simp only [addOneRejection, hkey, h]
        simp [hkey]
    | some k' =>
        have hrej : (addOneRejection e r).rejections_cache
            = alistInsert k' (mkCacheEntry r) e.rejections_cache := by
          unfold addOneRejection
          rw [hkey]
        rw [hrej]
        by_cases hkk : k' = k
        · subst hkk
          rw [alistLookup_insert_self]
          simp
        · rw [alistLookup_insert_ne (fun hc => hkk hc.symm), h]
          simp [hkey, hkk]
  · cases hkey : create_match_key c with
    | none =>
        simp only [addOnePayment, hkey, h]
        simp [hkey]
    | some k' =>
        cases hc : alistContains k' e.rejections_cache
        · have hrc : (addOnePayment e c).rejections_cache = e.rejections_cache := by
            unfold addOnePayment
            rw [hkey]
            simp only [hc, Bool.false_eq_true, if_false]
          rw [hrc, h]
          have hkk : ¬(k' = k) := by
            intro hk
            subst hk
            rw [show alistContains k' e.rejections_cache
                  = (alistLookup k' e.rejections_cache).isSome from rfl, h] at hc
            simp at hc
          simp [hkey, hkk]
        · have hrc : (addOnePayment e c).rejections_cache
              = alistModify k'
                  (fun ce => { ce with found_in_835 := true,
                                       resubmission_date := c.payment_date })
                  e.rejections_cache := by
            unfold addOnePayment
            rw [hkey]
            simp only [hc, if_true]
          rw [hrc, alistLookup_modify]
          by_cases hkk : k = k'
          · subst hkk
            rw [if_pos rfl, h]
            simp [hkey]
          · have hkk2 : ¬(k' = k) := fun hc2 => hkk (Eq.symm hc2)
            rw [if_neg hkk, h]
            simp [hkey, hkk2]
  · intro k₁ h₁
    cases hkey : create_match_key c with
    | none =>
        simp only [addOnePayment, hkey]
        exact h₁
    | some k' =>
        cases hc : alistContains k' e.rejections_cache
        · have hrc : (addOnePayment e c).rejections_cache = e.rejections_cache := by
            unfold addOnePayment
            rw [hkey]
            simp only [hc, Bool.false_eq_true, if_false]
          rw [hrc]
          exact h₁
        · have hrc : (addOnePayment e c).rejections_cache
              = alistModify k'
                  (fun ce => { ce with found_in_835 := true,
                                       resubmission_date := c.payment_date })
                  e.rejections_cache := by
            unfold addOnePayment
            rw [hkey]
            simp only [hc, if_true]
          rw [hrc, alistLookup_modify]
          by_cases hkk : k₁ = k'
          · subst hkk
            rw [if_pos rfl, h₁]
            rfl
          · rw [if_neg hkk]
            exact h₁

/-- Claim C9 (amended) witness: on a one-entry cache, a payment with the
matching key flips the flag and sets the resubmission date while keeping
all other fields; a payment whose key misses the cache creates nothing. -/
theorem claim_C9_witness :
    alistLookup "P1|20240101" (addOneRejection engineC5 recordC5).rejections_cache =
        some (mkCacheEntry recordC5)
    ∧ alistLookup "P1|20240101"
        (addOnePayment engineC5
          { patient_id := some "P1", date_of_service := some "20240101",
            payment_date := some "20240301" }).rejections_cache =
        some { entryC5 with found_in_835 := true, resubmission_date := some "20240301" }
    ∧ (∀ k₁, alistLookup k₁ engineC5.rejections_cache = none →
        alistLookup k₁ (addOnePayment engineC5
          { patient_id := some "P1", date_of_service := some "20240101",
            payment_date := some "20240301" }).rejections_cache = none) := by
  have h := claim_C9_amended engineC5 recordC5
    { patient_id := some "P1", date_of_service := some "20240101",
      payment_date := some "20240301" }
    "P1|20240101" entryC5 (by decide)
  refine ⟨?_, ?_, h.2.2⟩
  · rw [h.1]
    decide
  · rw [h.2.1]
    decide


theorem add_277ca_rejections_none_date {e : Engine} (l : List TxnRecord)
    (he : ∀ kv ∈ e.rejections_cache, (kv.2).rejection_date = none)
    (hl : ∀ r ∈ l, r.transaction_date = none) :
    ∀ kv ∈ (add_277ca_rejections e l).rejections_cache,
      (kv.2).rejection_date = none := by
  induction l generalizing e with
  | nil => exact he
  | cons r rest ih =>
      refine ih (e := addOneRejection e r) ?_
        (fun x hx => hl x (List.mem_cons_of_mem _ hx))
      intro kv hkv
      cases hkey : create_match_key r with
      | none =>
          rw [show addOneRejection e r = e from by
                unfold addOneRejection
                rw [hkey]] at hkv
          exact he kv hkv
      | some k =>
          rw [show (addOneRejection e r).rejections_cache
                = alistInsert k (mkCacheEntry r) e.rejections_cache from by
                unfold addOneRejection
                rw [hkey]] at hkv
          rcases alistInsert_mem hkv with h1 | h1
          · rw [h1]
            exact hl r (List.mem_cons_self r rest)
          · exact he kv h1

theorem find_unsubmitted_empty_of_none_date (e : Engine) (now thr : Int)
    (he : ∀ kv ∈ e.rejections_cache, (kv.2).rejection_date = none) :
    find_unsubmitted_claims e now thr = [] := by
  unfold find_unsubmitted_claims
  have hmap : e.rejections_cache.filterMap (alertOf now thr) = [] := by
    rw [List.filterMap_eq_nil_iff]
    intro kv hkv
    have hdate := he kv hkv
    unfold alertOf
    cases hf : (kv.2).found_in_835 <;> simp [hf, hdate, pyTruthyStr_none_eq]
  rw [hmap]
  rfl

/-- Claim C10: the assembler initializes transactions without any
rejection-date field and no extractor ever sets one, so an engine fed only
with parsed 277CA output has `rejection_date` absent in every cache entry,
and `find_unsubmitted_claims` returns the empty list for every threshold
and every current time. -/
theorem claim_C10 (docs : List String) (now thr : Int) :
    (∀ kv ∈ (docs.foldl (fun e doc =>
          add_277ca_rejections e ((assemble277CA doc).rejections.map txnToRecord))
        initEngine).rejections_cache, (kv.2).rejection_date = none)
    ∧ find_unsubmitted_claims
        (docs.foldl (fun e doc =>
          add_277ca_rejections e ((assemble277CA doc).rejections.map txnToRecord))
        initEngine) now thr = [] := by
  have hmain : ∀ (e : Engine), (∀ kv ∈ e.rejections_cache, (kv.2).rejection_date = none) →
      ∀ kv ∈ (docs.foldl (fun e doc =>
          add_277ca_rejections e ((assemble277CA doc).rejections.map txnToRecord))
        e).rejections_cache, (kv.2).rejection_date = none := by
    induction docs with
    | nil => exact fun e he => he
    | cons doc rest ih =>
        intro e he
        refine ih _ (add_277ca_rejections_none_date _ he ?_)
        intro r hr
        rcases List.mem_map.mp hr with ⟨t, _, rfl⟩
        rfl
  have h0 : ∀ kv ∈ initEngine.rejections_cache, (kv.2).rejection_date = none := by
    intro kv hkv
    simp [initEngine] at hkv
  have h1 := hmain initEngine h0
  exact ⟨h1, find_unsubmitted_empty_of_none_date _ now thr h1⟩

/-- Claim C10 witness: a parsed document whose single rejection reaches the
cache (patient id via the `EA` reference fallback, service date via the
`472` date segment) still yields no unsubmitted-claim alerts. -/
theorem claim_C10_witness :
    find_unsubmitted_claims
      ((["HL*1**22~TRN*1*T1~STC*A7:42~REF*EA*P1~DTP*472*D8*20240101~"] : List String).foldl
        (fun e doc =>
          add_277ca_rejections e ((assemble277CA doc).rejections.map txnToRecord))
        initEngine) 63843638400 30 = [] :=
  (claim_C10 ["HL*1**22~TRN*1*T1~STC*A7:42~REF*EA*P1~DTP*472*D8*20240101~"]
    63843638400 30).2

end X12
